import Mathlib

/-!
Shallow embedding of the Vireon Mensa Fractal Engine
(`vireon_mensa_engine.py` and `vireon_mensa_solver.py`).

Python integers are modelled as `Int`.  For the positive divisors used
throughout both files, Python's `%` agrees with `Int.emod` (the `%` of
Lean's `Int`) and Python's `//` agrees with `Int`'s `/`, so the modular
formulas transcribe literally.  Python dicts holding question metadata
become association lists `List (String × MetaVal)`; raising `ValueError`
becomes returning `Except.error`.
-/

/-- Value stored in a question's `meta` mapping (Python dict values). -/
inductive MetaVal where
  | i : Int → MetaVal
  | s : String → MetaVal
  | strList : List String → MetaVal
  | intList : List Int → MetaVal
  | dict : List (String × Int) → MetaVal
  | intPair : Int → Int → MetaVal
deriving DecidableEq, Repr

/-- The question payload produced by the engine (the Python dict literal). -/
structure Question where
  test_id : Int
  question_idx : Int
  domain : String
  prompt : String
  meta : List (String × MetaVal)
deriving DecidableEq, Repr

/-- The solver's dynamically-typed return value, as a sum type. -/
inductive Answer where
  | int : Int → Answer
  | str : String → Answer
  | intPair : Int → Int → Answer
deriving DecidableEq, Repr

def NUM_TESTS : Int := 1000

def QUESTIONS_PER_TEST : Int := 100

namespace Engine

/-- `chr(ord('A') + (pos % 26))` from `generate_letter_question`. -/
def enc (pos : Int) : String :=
  String.singleton (Char.ofNat (65 + (pos % 26).toNat))

/-- The 7-term sequence built by `generate_numeric_question`:
`a_k = base + alpha*k + beta*k^2 + parity_offset(k)` for `k = 1..7`. -/
def numeric_seq (test_id question_idx : Int) : List Int :=
  let local_idx := question_idx
  let base := (3 * test_id + 5 * local_idx) % 97 + 10
  let alpha := (2 * test_id + local_idx) % 11 + 1
  let beta := (test_id + 3 * local_idx) % 7 + 1
  let even_offset := (test_id * local_idx) % 9
  let odd_offset := (test_id + local_idx) % 9
  (List.range 7).map (fun (n : Nat) =>
    let k : Int := (n : Int) + 1
    let val := base + alpha * k + beta * (k * k)
    if k % 2 = 0 then val + even_offset else val + odd_offset)

/-- `missing_pos = 2 + (local % 3)` from `generate_numeric_question`. -/
def numeric_missing_pos (question_idx : Int) : Int :=
  2 + (question_idx % 3)

/-- The `shown` list of `generate_numeric_question`: each term rendered
with `str`, except `"?"` at the hidden position. -/
def numeric_shown (test_id question_idx : Int) : List String :=
  (numeric_seq test_id question_idx).enum.map (fun p =>
    if (p.1 : Int) = numeric_missing_pos question_idx then "?" else toString p.2)

/-- `generate_numeric_question` (questions 1–15). -/
def generate_numeric_question (test_id question_idx : Int) : Question :=
  let local_idx := question_idx
  let length : Int := 7
  let shown := numeric_shown test_id question_idx
  let prompt :=
    "Test " ++ toString test_id ++ ", Q" ++ toString question_idx ++
    " (Numeric sequence – hard):\nFill in the missing number. The rule may depend on position,\nparity, and more than one type of growth.\n\nSequence: " ++
    String.intercalate ", " shown
  { test_id := test_id
    question_idx := question_idx
    domain := "numeric_sequence_hard"
    prompt := prompt
    meta := [("local_index", MetaVal.i local_idx),
             ("length", MetaVal.i length),
             ("pattern_hint", MetaVal.s "mix of linear, quadratic, and parity-based offsets")] }

/-- `generate_logic_question` (questions 16–25). -/
def generate_logic_question (test_id question_idx : Int) : Question :=
  let local_idx := question_idx - 15
  let pattern_type := (test_id + local_idx) % 4
  let stmt :=
    if pattern_type = 0 then "(p AND q) OR (NOT r)"
    else if pattern_type = 1 then "IF (p AND r) THEN (q XOR r)"
    else if pattern_type = 2 then "(p XOR q) AND (q OR r)"
    else "IF (p OR q) THEN (NOT p AND r)"
  let pseudo_prime_def :=
    "Call an integer \x27prime-like\x27 here if it has no divisors in the set \x7b2, 3, 5, 7\x7d other than 1."
  let prompt :=
    "Test " ++ toString test_id ++ ", Q" ++ toString question_idx ++
    " (Nested logic – hard):\nLet p be: \x27test id " ++ toString test_id ++
    " is even\x27.\nLet q be: \x27local index " ++ toString local_idx ++
    " (1–10 in this block) is a multiple of 3\x27.\nLet r be: \x27test_id + local_index is prime-like\x27.\n\n" ++
    pseudo_prime_def ++
    "\n\nConsider the compound statement:\n    " ++ stmt ++
    "\n\nIs this statement TRUE or FALSE?"
  { test_id := test_id
    question_idx := question_idx
    domain := "nested_logic_hard"
    prompt := prompt
    meta := [("local_index", MetaVal.i local_idx),
             ("statement_form", MetaVal.s stmt),
             ("prime_like_rule", MetaVal.s "no divisors in \x7b2,3,5,7\x7d besides 1")] }

/-- `generate_spatial_like_question` (questions 26–35). -/
def generate_spatial_like_question (test_id question_idx : Int) : Question :=
  let local_idx := question_idx - 25
  let primary := ["↑", "→", "↓", "←"]
  let secondary := ["↖", "↗", "↘", "↙"]
  let prompt :=
    "Test " ++ toString test_id ++ ", Q" ++ toString question_idx ++
    " (Dual-arrow cycle – hard):\nConsider two infinite repeating sequences:\n  Primary:   " ++
    String.intercalate ", " primary ++ " (then repeats)\n  Secondary: " ++
    String.intercalate ", " secondary ++ " (then repeats)\n\nAt position N₁ = 7·" ++
    toString test_id ++ " + 11·" ++ toString local_idx ++
    " in the Primary sequence,\nand position N₂ = 5·" ++ toString test_id ++
    " − 3·" ++ toString local_idx ++
    " in the Secondary sequence,\na pair of arrows (A, B) is observed.\n\nWhat is the ordered pair (A, B)?"
  { test_id := test_id
    question_idx := question_idx
    domain := "dual_arrow_cycle_hard"
    prompt := prompt
    meta := [("local_index", MetaVal.i local_idx),
             ("primary_cycle", MetaVal.strList primary),
             ("secondary_cycle", MetaVal.strList secondary),
             ("N1_expression", MetaVal.s ("7*" ++ toString test_id ++ " + 11*" ++ toString local_idx)),
             ("N2_expression", MetaVal.s ("5*" ++ toString test_id ++ " - 3*" ++ toString local_idx))] }

/-- The coefficient `a` of `generate_letter_question`:
`a = (2*test_id+1) % 26`, bumped by 1 if that is even. -/
def letter_a (test_id : Int) : Int :=
  let a := (2 * test_id + 1) % 26
  if a % 2 = 0 then (a + 1) % 26 else a

/-- `generate_letter_question` (questions 36–45). -/
def generate_letter_question (test_id question_idx : Int) : Question :=
  let local_idx := question_idx - 35
  let a := letter_a test_id
  let b := (3 * local_idx + test_id) % 26
  let x1 := (5 * test_id + local_idx) % 26
  let x2 := (x1 + 13) % 26
  let A1 := enc x1
  let B1 := enc ((a * x1 + b) % 26)
  let A2 := enc x2
  let prompt :=
    "Test " ++ toString test_id ++ ", Q" ++ toString question_idx ++
    " (Letter analogy – hard):\nA secret code maps each letter to another letter according to\na fixed rule on its position in the alphabet.\n\nExample:\n    " ++
    A1 ++ " → " ++ B1 ++
    "\n\nUsing the same hidden rule, what letter does " ++ A2 ++
    " map to?\n(All letters are in A–Z, positions taken modulo 26.)"
  { test_id := test_id
    question_idx := question_idx
    domain := "letter_analogy_hard"
    prompt := prompt
    meta := [("local_index", MetaVal.i local_idx),
             ("a_mod_26", MetaVal.i a),
             ("b_mod_26", MetaVal.i b),
             ("example_input_index", MetaVal.i x1),
             ("query_input_index", MetaVal.i x2)] }

/-- `generate_word_question` (questions 46–55). -/
def generate_word_question (test_id question_idx : Int) : Question :=
  let local_idx := question_idx - 45
  let base_items := 4 + (test_id % 9)
  let daily_gain := 1 + (local_idx % 5)
  let days := 3 + ((test_id + local_idx) % 4)
  let group := 2 + (test_id % 4)
  let bonus_factor := 1 + ((test_id * local_idx) % 3)
  let loss := (base_items + daily_gain) % (group + 1)
  let prompt :=
    "Test " ++ toString test_id ++ ", Q" ++ toString question_idx ++
    " (Layered word problem – hard):\nA researcher starts with " ++ toString base_items ++
    " experimental samples.\nEach day, they create " ++ toString daily_gain ++
    " new samples, and this continues for " ++ toString days ++
    " days. After that, they multiply the total number of samples they have by a \x27bonus factor\x27 of " ++
    toString bonus_factor ++ ".\nFinally, they must discard exactly " ++ toString loss ++
    " samples due to defects, and then divide the remaining samples equally among " ++
    toString group ++ " teams.\n\nHow many samples does each team receive?"
  { test_id := test_id
    question_idx := question_idx
    domain := "word_arithmetic_hard"
    prompt := prompt
    meta := [("local_index", MetaVal.i local_idx),
             ("base_items", MetaVal.i base_items),
             ("daily_gain", MetaVal.i daily_gain),
             ("days", MetaVal.i days),
             ("bonus_factor", MetaVal.i bonus_factor),
             ("loss", MetaVal.i loss),
             ("groups", MetaVal.i group)] }

/-- `cell_symbol` of `generate_raven_matrix_question`: the three drifted
feature indices rendered as `shape + fill + (orientation)`. -/
def raven_cell_symbol (test_id local_idx r c : Int) : String :=
  let shapes := ["▲", "■", "●", "★"]
  let orientations := ["0°", "90°", "180°", "270°"]
  let fills := ["○", "◐", "●"]
  let base_idx := (test_id + local_idx) % 4
  let base_orient := (2 * test_id + local_idx) % 4
  let base_fill := (3 * test_id + 2 * local_idx) % 3
  let s_idx := (base_idx + r + 2 * c) % 4
  let o_idx := (base_orient + 2 * r + c) % 4
  let f_idx := (base_fill + r + c) % 3
  shapes.getD s_idx.toNat "" ++ fills.getD f_idx.toNat "" ++ "(" ++
    orientations.getD o_idx.toNat "" ++ ")"

/-- `generate_raven_matrix_question` (questions 56–70). -/
def generate_raven_matrix_question (test_id question_idx : Int) : Question :=
  let local_idx := question_idx - 55
  let rule_type := (test_id + 2 * local_idx) % 4
  let missing_mode := (test_id + local_idx) % 3
  let grid0 := (List.range 3).map (fun (r : Nat) =>
    (List.range 3).map (fun (c : Nat) => raven_cell_symbol test_id local_idx (r : Int) (c : Int)))
  let mrc : Nat × Nat :=
    if missing_mode = 0 then (2, 2)
    else if missing_mode = 1 then (1, 1)
    else (0, 2)
  let grid := grid0.set mrc.1 ((grid0.getD mrc.1 []).set mrc.2 " ? ")
  let grid_text := String.intercalate "\n" (grid.map (fun row => String.intercalate " | " row))
  let hints :=
    ["Row-wise, orientation changes in fixed increments.",
     "Column-wise, fill levels behave like addition modulo 3.",
     "Shapes drift systematically across rows and columns.",
     "Some rows can be interpreted as an \x27xor\x27 of feature patterns."]
  let hint := hints.getD rule_type.toNat ""
  let prompt :=
    "Test " ++ toString test_id ++ ", Q" ++ toString question_idx ++
    " (Raven-style matrix – hard):\nBelow is a 3×3 grid of abstract figures; one cell is replaced by \x27?\x27.\n\n" ++
    grid_text ++
    "\n\nThe grid obeys a consistent rule combining row and column changes\nin shape, orientation, and fill.\nWhich figure should replace \x27?\x27?\n\nHint: " ++
    hint
  { test_id := test_id
    question_idx := question_idx
    domain := "raven_matrix_hard"
    prompt := prompt
    meta := [("local_index", MetaVal.i local_idx),
             ("rule_type", MetaVal.i rule_type),
             ("missing_cell", MetaVal.dict [("row", (mrc.1 : Int)), ("col", (mrc.2 : Int))])] }

/-- Digit loop of `_to_base`: most-significant digit first, with an
explicit fuel argument (the loop runs at most `n` times for `base ≥ 2`). -/
def to_base_digits : Nat → Nat → Nat → String
  | 0, _, _ => ""
  | fuel + 1, x, b =>
    if x = 0 then ""
    else to_base_digits fuel (x / b) b ++
      String.singleton (("0123456789ABCDEFGHIJKLMNOPQRSTUVWXYZ".toList).getD (x % b) '0')

/-- `_to_base`: render `n` in the given base, `"0"` for `n = 0`. -/
def to_base (n b : Int) : String :=
  if n = 0 then "0" else to_base_digits n.toNat n.toNat b.toNat

/-- `base_x` of `generate_base_conversion_question`. -/
def base_x_of (test_id local_idx : Int) : Int :=
  5 + ((test_id + local_idx) % 12)

/-- `base_y` of `generate_base_conversion_question`, after the collision
re-roll against `base_x` (falling back to 16 if still colliding). -/
def base_y_of (test_id local_idx : Int) : Int :=
  let base_x := base_x_of test_id local_idx
  let base_y := 5 + ((2 * test_id + local_idx) % 12)
  if base_y = base_x then
    let base_y2 := 5 + ((3 * test_id + local_idx) % 12)
    if base_y2 = base_x then 16 else base_y2
  else base_y

/-- `base_z` of `generate_base_conversion_question`. -/
def base_z_of (test_id local_idx : Int) : Int :=
  5 + ((test_id + 2 * local_idx) % 12)

/-- The hidden integer `N = 200 + 17*test_id + 11*local`. -/
def base_conversion_N (test_id local_idx : Int) : Int :=
  200 + 17 * test_id + 11 * local_idx

/-- `generate_base_conversion_question` (questions 71–80). -/
def generate_base_conversion_question (test_id question_idx : Int) : Question :=
  let local_idx := question_idx - 70
  let base_x := base_x_of test_id local_idx
  let base_y := base_y_of test_id local_idx
  let N := base_conversion_N test_id local_idx
  let repr_x := to_base N base_x
  let repr_y := to_base N base_y
  let base_z := base_z_of test_id local_idx
  let repr_z := to_base N base_z
  let prompt :=
    "Test " ++ toString test_id ++ ", Q" ++ toString question_idx ++
    " (Base conversion – hard):\nA certain integer N is written as " ++ repr_x ++
    " in base " ++ toString base_x ++ " and as " ++ repr_y ++ " in base " ++
    toString base_y ++ ". When expressed in base " ++ toString base_z ++
    ", it would be written as " ++ repr_z ++
    ".\n\nAll three representations refer to the same integer N.\nWhat is the value of N when written in base 10 (ordinary decimal)?"
  { test_id := test_id
    question_idx := question_idx
    domain := "base_conversion_hard"
    prompt := prompt
    meta := [("local_index", MetaVal.i local_idx),
             ("base_x", MetaVal.i base_x),
             ("base_y", MetaVal.i base_y),
             ("base_z", MetaVal.i base_z),
             ("repr_x", MetaVal.s repr_x),
             ("repr_y", MetaVal.s repr_y),
             ("repr_z", MetaVal.s repr_z)] }

/-- `generate_shape_sequence_question` (questions 81–90). -/
def generate_shape_sequence_question (test_id question_idx : Int) : Question :=
  let local_idx := question_idx - 80
  let modulus_A := 5 + ((test_id + local_idx) % 5)
  let modulus_B := 6 + ((2 * test_id + local_idx) % 5)
  let base_A := 1 + ((test_id + 2 * local_idx) % modulus_A)
  let base_B := 1 + ((2 * test_id + 3 * local_idx) % modulus_B)
  let step_A := 1 + ((3 * test_id + local_idx) % modulus_A)
  let step_B := 1 + ((4 * test_id + 2 * local_idx) % modulus_B)
  let shapeA := (["●", "■", "▲"]).getD ((test_id + local_idx) % 3).toNat ""
  let shapeB := (["◆", "✚", "✕"]).getD ((2 * test_id + local_idx) % 3).toNat ""
  let counts_A := (List.range 4).map (fun (i : Nat) =>
    let k : Int := (i : Int) + 1
    let a := (base_A + (k - 1) * step_A) % modulus_A
    if a = 0 then modulus_A else a)
  let counts_B := (List.range 4).map (fun (i : Nat) =>
    let k : Int := (i : Int) + 1
    let b := (base_B + (k - 1) * step_B) % modulus_B
    if b = 0 then modulus_B else b)
  let lines := (List.range 4).map (fun (i : Nat) =>
    "Figure " ++ toString (i + 1) ++ ": " ++ toString (counts_A.getD i 0) ++ " " ++
    shapeA ++ " symbols and " ++ toString (counts_B.getD i 0) ++ " " ++ shapeB ++
    " symbols.")
  let sequence_text := String.intercalate "\n" lines
  let prompt :=
    "Test " ++ toString test_id ++ ", Q" ++ toString question_idx ++
    " (Next figure – coupled modulo):\nConsider the sequence of abstract figures:\n\n" ++
    sequence_text ++
    "\n\nThe counts of " ++ shapeA ++ " and " ++ shapeB ++
    " symbols each follow a modular\narithmetic rule (but possibly with different moduli and steps).\n\nIn Figure 5, how many " ++
    shapeA ++ " symbols and how many " ++ shapeB ++ " symbols should appear?"
  { test_id := test_id
    question_idx := question_idx
    domain := "shape_sequence_coupled_modulo_hard"
    prompt := prompt
    meta := [("local_index", MetaVal.i local_idx),
             ("modulus_A", MetaVal.i modulus_A),
             ("modulus_B", MetaVal.i modulus_B),
             ("shapeA", MetaVal.s shapeA),
             ("shapeB", MetaVal.s shapeB),
             ("first_four_A", MetaVal.intList counts_A),
             ("first_four_B", MetaVal.intList counts_B),
             ("rule_hint", MetaVal.s "two coupled linear progressions modulo different bases")] }

/-- `generate_self_referential_question` (questions 91–100). -/
def generate_self_referential_question (test_id question_idx : Int) : Question :=
  let local_idx := question_idx - 90
  let digit := (test_id + local_idx) % 10
  let mode := (test_id + 2 * local_idx) % 4
  let condition_text :=
    if mode = 0 then
      "contain the digit " ++ toString digit ++ " at least once (in decimal notation)"
    else if mode = 1 then
      "contain the digit " ++ toString digit ++ " at least once AND are even numbers"
    else if mode = 2 then
      "contain the digit " ++ toString digit ++ " at least once AND are prime numbers"
    else
      "contain the digit " ++ toString digit ++ " at least once OR are divisible by 9"
  let prompt :=
    "Test " ++ toString test_id ++ ", Q" ++ toString question_idx ++
    " (Self-referential – hard):\nIn this test, questions are numbered from 1 to " ++
    toString QUESTIONS_PER_TEST ++
    ".\nConsider those question numbers that " ++ condition_text ++
    ".\n\nHow many such question numbers are there?"
  { test_id := test_id
    question_idx := question_idx
    domain := "self_referential_hard"
    prompt := prompt
    meta := [("local_index", MetaVal.i local_idx),
             ("digit", MetaVal.i digit),
             ("mode", MetaVal.i mode),
             ("range", MetaVal.intPair 1 QUESTIONS_PER_TEST)] }

/-- `generate_question`: range validation then dispatch on the 9 bands. -/
def generate_question (test_id question_idx : Int) : Except String Question :=
  if ¬ (1 ≤ test_id ∧ test_id ≤ NUM_TESTS) then
    Except.error ("test_id must be in 1.." ++ toString NUM_TESTS)
  else if ¬ (1 ≤ question_idx ∧ question_idx ≤ QUESTIONS_PER_TEST) then
    Except.error ("question_idx must be in 1.." ++ toString QUESTIONS_PER_TEST)
  else if 1 ≤ question_idx ∧ question_idx ≤ 15 then
    Except.ok (generate_numeric_question test_id question_idx)
  else if 16 ≤ question_idx ∧ question_idx ≤ 25 then
    Except.ok (generate_logic_question test_id question_idx)
  else if 26 ≤ question_idx ∧ question_idx ≤ 35 then
    Except.ok (generate_spatial_like_question test_id question_idx)
  else if 36 ≤ question_idx ∧ question_idx ≤ 45 then
    Except.ok (generate_letter_question test_id question_idx)
  else if 46 ≤ question_idx ∧ question_idx ≤ 55 then
    Except.ok (generate_word_question test_id question_idx)
  else if 56 ≤ question_idx ∧ question_idx ≤ 70 then
    Except.ok (generate_raven_matrix_question test_id question_idx)
  else if 71 ≤ question_idx ∧ question_idx ≤ 80 then
    Except.ok (generate_base_conversion_question test_id question_idx)
  else if 81 ≤ question_idx ∧ question_idx ≤ 90 then
    Except.ok (generate_shape_sequence_question test_id question_idx)
  else
    Except.ok (generate_self_referential_question test_id question_idx)

end Engine

namespace Solver

/-- `_ensure_valid_indices`: shared range validation. -/
def ensure_valid_indices (test_id question_idx : Int) : Except String Unit :=
  if ¬ (1 ≤ test_id ∧ test_id ≤ NUM_TESTS) then
    Except.error ("test_id must be in 1.." ++ toString NUM_TESTS)
  else if ¬ (1 ≤ question_idx ∧ question_idx ≤ QUESTIONS_PER_TEST) then
    Except.error ("question_idx must be in 1.." ++ toString QUESTIONS_PER_TEST)
  else
    Except.ok ()

/-- `_is_prime_like`: no divisor among 2, 3, 5, 7. -/
def is_prime_like (n : Int) : Bool :=
  ([2, 3, 5, 7] : List Int).all (fun d => n % d != 0)

/-- Trial-division loop of `_is_prime`: odd candidates `f = 3, 5, ...`
while `f ≤ r`. -/
def is_prime_loop (n f r : Int) : Bool :=
  if h : f ≤ r then
    if n % f = 0 then false else is_prime_loop n (f + 2) r
  else true
termination_by (r + 2 - f).toNat
decreasing_by
  omega

/-- `_is_prime`: basic primality check (`r = int(n ** 0.5)` is the
integer square root for the n in [1,100] this is called on). -/
def is_prime (n : Int) : Bool :=
  if n < 2 then false
  else if n % 2 = 0 then n == 2
  else is_prime_loop n 3 (Int.ofNat (Nat.sqrt n.toNat))

/-- `_solve_numeric` (questions 1–15): rebuild the sequence and return
the hidden term. -/
def solve_numeric (test_id question_idx : Int) : Int :=
  let local_idx := question_idx
  let base := (3 * test_id + 5 * local_idx) % 97 + 10
  let alpha := (2 * test_id + local_idx) % 11 + 1
  let beta := (test_id + 3 * local_idx) % 7 + 1
  let even_offset := (test_id * local_idx) % 9
  let odd_offset := (test_id + local_idx) % 9
  let seq := (List.range 7).map (fun (n : Nat) =>
    let k : Int := (n : Int) + 1
    let val := base + alpha * k + beta * (k * k)
    if k % 2 = 0 then val + even_offset else val + odd_offset)
  let missing_pos := 2 + (local_idx % 3)
  seq.getD missing_pos.toNat 0

/-- `_solve_logic` (questions 16–25): evaluate the selected template. -/
def solve_logic (test_id question_idx : Int) : String :=
  let local_idx := question_idx - 15
  let pattern_type := (test_id + local_idx) % 4
  let p := test_id % 2 = 0
  let q := local_idx % 3 = 0
  let r := is_prime_like (test_id + local_idx) = true
  let val :=
    if pattern_type = 0 then (p ∧ q) ∨ ¬ r
    else if pattern_type = 1 then ¬ (p ∧ r) ∨ Xor' q r
    else if pattern_type = 2 then Xor' p q ∧ (q ∨ r)
    else ¬ (p ∨ q) ∨ (¬ p ∧ r)
  if val then "TRUE" else "FALSE"

/-- `_solve_arrows` (questions 26–35): the pair from the two cycles. -/
def solve_arrows (test_id question_idx : Int) : String :=
  let local_idx := question_idx - 25
  let primary := ["↑", "→", "↓", "←"]
  let secondary := ["↖", "↗", "↘", "↙"]
  let N1 := 7 * test_id + 11 * local_idx
  let N2 := 5 * test_id - 3 * local_idx
  let A := primary.getD ((N1 - 1) % 4).toNat ""
  let B := secondary.getD ((N2 - 1) % 4).toNat ""
  "(" ++ A ++ ", " ++ B ++ ")"

/-- The solver's copy of the letter coefficient `a` (same lines as the
engine's). -/
def letter_a (test_id : Int) : Int :=
  let a := (2 * test_id + 1) % 26
  if a % 2 = 0 then (a + 1) % 26 else a

/-- `enc` inside `_solve_letter`. -/
def enc (i : Int) : String :=
  String.singleton (Char.ofNat (65 + (i % 26).toNat))

/-- `_solve_letter` (questions 36–45): apply the affine map to `x2`. -/
def solve_letter (test_id question_idx : Int) : String :=
  let local_idx := question_idx - 35
  let a := letter_a test_id
  let b := (3 * local_idx + test_id) % 26
  let x1 := (5 * test_id + local_idx) % 26
  let x2 := (x1 + 13) % 26
  let answer_index := (a * x2 + b) % 26
  enc answer_index

/-- `_solve_word` (questions 46–55); Python's `//` is floor division,
which agrees with `Int`'s `/` for the positive divisor `group`. -/
def solve_word (test_id question_idx : Int) : Int :=
  let local_idx := question_idx - 45
  let base_items := 4 + (test_id % 9)
  let daily_gain := 1 + (local_idx % 5)
  let days := 3 + ((test_id + local_idx) % 4)
  let group := 2 + (test_id % 4)
  let bonus_factor := 1 + ((test_id * local_idx) % 3)
  let loss := (base_items + daily_gain) % (group + 1)
  let total := (base_items + daily_gain * days) * bonus_factor - loss
  total / group

/-- The solver's copy of `cell_symbol` (questions 56–70). -/
def raven_cell_symbol (test_id local_idx r c : Int) : String :=
  let shapes := ["▲", "■", "●", "★"]
  let orientations := ["0°", "90°", "180°", "270°"]
  let fills := ["○", "◐", "●"]
  let base_idx := (test_id + local_idx) % 4
  let base_orient := (2 * test_id + local_idx) % 4
  let base_fill := (3 * test_id + 2 * local_idx) % 3
  let s_idx := (base_idx + r + 2 * c) % 4
  let o_idx := (base_orient + 2 * r + c) % 4
  let f_idx := (base_fill + r + c) % 3
  shapes.getD s_idx.toNat "" ++ fills.getD f_idx.toNat "" ++ "(" ++
    orientations.getD o_idx.toNat "" ++ ")"

/-- `_solve_raven` (questions 56–70): render the hidden cell directly. -/
def solve_raven (test_id question_idx : Int) : String :=
  let local_idx := question_idx - 55
  let missing_mode := (test_id + local_idx) % 3
  let mrc : Int × Int :=
    if missing_mode = 0 then (2, 2)
    else if missing_mode = 1 then (1, 1)
    else (0, 2)
  raven_cell_symbol test_id local_idx mrc.1 mrc.2

/-- `_solve_base` (questions 71–80): return the hidden integer N. -/
def solve_base (test_id question_idx : Int) : Int :=
  let local_idx := question_idx - 70
  200 + 17 * test_id + 11 * local_idx

/-- `_solve_shape_sequence` (questions 81–90): both recurrences at k=5. -/
def solve_shape_sequence (test_id question_idx : Int) : Int × Int :=
  let local_idx := question_idx - 80
  let modulus_A := 5 + ((test_id + local_idx) % 5)
  let modulus_B := 6 + ((2 * test_id + local_idx) % 5)
  let base_A := 1 + ((test_id + 2 * local_idx) % modulus_A)
  let base_B := 1 + ((2 * test_id + 3 * local_idx) % modulus_B)
  let step_A := 1 + ((3 * test_id + local_idx) % modulus_A)
  let step_B := 1 + ((4 * test_id + 2 * local_idx) % modulus_B)
  let k : Int := 5
  let a5 := (base_A + (k - 1) * step_A) % modulus_A
  let b5 := (base_B + (k - 1) * step_B) % modulus_B
  (if a5 = 0 then modulus_A else a5, if b5 = 0 then modulus_B else b5)

/-- `digit, mode` of `_basic_self_ref_digit_mode` (questions 91–100). -/
def basic_self_ref_digit_mode (test_id question_idx : Int) : Int × Int :=
  let local_idx := question_idx - 90
  ((test_id + local_idx) % 10, (test_id + 2 * local_idx) % 4)

/-- `has_digit` inside `_self_ref_count_for_digit_mode`: Python's
substring test `str(d) in str(n)` on the decimal renderings. -/
def has_digit (n d : Int) : Bool :=
  (toString n).toList.tails.any (fun t => (toString d).toList.isPrefixOf t)

/-- `_self_ref_count_for_digit_mode`: count n in 1..100 meeting the
mode's condition. -/
def self_ref_count_for_digit_mode (digit mode : Int) : Int :=
  ((List.range' 1 QUESTIONS_PER_TEST.toNat).countP (fun n =>
    let has_d := has_digit (Int.ofNat n) digit
    if mode = 0 then has_d
    else if mode = 1 then has_d && (n % 2 == 0)
    else if mode = 2 then has_d && is_prime (Int.ofNat n)
    else has_d || (n % 9 == 0)) : Nat)

/-- `_solve_self_referential` (questions 91–100). -/
def solve_self_referential (test_id question_idx : Int) : Int :=
  let dm := basic_self_ref_digit_mode test_id question_idx
  self_ref_count_for_digit_mode dm.1 dm.2

/-- `solve_question`: validation via `_ensure_valid_indices` (whose
error propagates), then dispatch on the 9 bands. -/
def solve_question (test_id question_idx : Int) : Except String Answer :=
  Except.bind (ensure_valid_indices test_id question_idx) (fun _ =>
    Except.ok (
      if 1 ≤ question_idx ∧ question_idx ≤ 15 then
        Answer.int (solve_numeric test_id question_idx)
      else if 16 ≤ question_idx ∧ question_idx ≤ 25 then
        Answer.str (solve_logic test_id question_idx)
      else if 26 ≤ question_idx ∧ question_idx ≤ 35 then
        Answer.str (solve_arrows test_id question_idx)
      else if 36 ≤ question_idx ∧ question_idx ≤ 45 then
        Answer.str (solve_letter test_id question_idx)
      else if 46 ≤ question_idx ∧ question_idx ≤ 55 then
        Answer.int (solve_word test_id question_idx)
      else if 56 ≤ question_idx ∧ question_idx ≤ 70 then
        Answer.str (solve_raven test_id question_idx)
      else if 71 ≤ question_idx ∧ question_idx ≤ 80 then
        Answer.int (solve_base test_id question_idx)
      else if 81 ≤ question_idx ∧ question_idx ≤ 90 then
        Answer.intPair (solve_shape_sequence test_id question_idx).1
          (solve_shape_sequence test_id question_idx).2
      else
        Answer.int (solve_self_referential test_id question_idx)))

end Solver

/-! ### Helper lemmas -/

/-- `Nat.digitChar` never yields the placeholder character. -/
theorem digitChar_ne_qmark (m : Nat) : Nat.digitChar m ≠ '?' := by
  by_cases h : m < 16
  · interval_cases m <;> decide
  · unfold Nat.digitChar
    iterate 16 rw [if_neg (by omega)]
    decide

/-- Every character produced by `Nat.toDigitsCore` is from the seed list
or a digit character. -/
theorem mem_toDigitsCore (b : Nat) :
    ∀ (fuel n : Nat) (ds : List Char) (c : Char),
      c ∈ Nat.toDigitsCore b fuel n ds → c ∈ ds ∨ ∃ m, c = Nat.digitChar m := by
  intro fuel
  induction fuel with
  | zero => intro n ds c hc; simpa [Nat.toDigitsCore] using Or.inl hc
  | succ fuel ih =>
    intro n ds c hc
    simp only [Nat.toDigitsCore] at hc
    split at hc
    · rcases List.mem_cons.mp hc with h | h
      · exact Or.inr ⟨n % b, h⟩
      · exact Or.inl h
    · rcases ih _ _ _ hc with h | h
      · rcases List.mem_cons.mp h with h' | h'
        · exact Or.inr ⟨n % b, h'⟩
        · exact Or.inl h'
      · exact Or.inr h

/-- The decimal rendering of a natural number is never `"?"`. -/
theorem nat_repr_ne_qmark (n : Nat) : Nat.repr n ≠ "?" := by
  intro h
  have hd : (Nat.toDigits 10 n).asString = "?" := h
  have hl : Nat.toDigits 10 n = ['?'] := List.asString_eq.mp hd
  have hm : '?' ∈ Nat.toDigits 10 n := by rw [hl]; exact List.mem_singleton.mpr rfl
  rcases mem_toDigitsCore 10 (n + 1) n [] '?' hm with h' | ⟨m, hm'⟩
  · simp at h'
  · exact digitChar_ne_qmark m hm'.symm

/-- The decimal rendering of an integer is never `"?"`. -/
theorem toString_int_ne_qmark (x : Int) : toString x ≠ "?" := by
  cases x with
  | ofNat m => exact nat_repr_ne_qmark m
  | negSucc m =>
    intro h
    have h2 : ("-" ++ toString (m + 1) : String) = "?" := h
    have h3 := congrArg String.data h2
    rw [String.data_append] at h3
    have h4 : '-' :: (toString (m + 1)).data = ['?'] := h3
    exact absurd (List.head_eq_of_cons_eq h4) (by decide)

/-- Validation in the solver succeeds on in-range keys. -/
theorem ensure_valid_ok (t q : Int) (h1 : 1 ≤ t) (h2 : t ≤ 1000)
    (h3 : 1 ≤ q) (h4 : q ≤ 100) :
    Solver.ensure_valid_indices t q = Except.ok () := by
  unfold Solver.ensure_valid_indices
  simp only [NUM_TESTS, QUESTIONS_PER_TEST]
  iterate 2 rw [if_neg (by omega)]

/-- Engine dispatch, band 1 (numeric sequences). -/
theorem generate_dispatch_numeric (t q : Int) (h1 : 1 ≤ t) (h2 : t ≤ 1000)
    (h3 : 1 ≤ q) (h4 : q ≤ 15) :
    Engine.generate_question t q = Except.ok (Engine.generate_numeric_question t q) := by
  unfold Engine.generate_question
  simp only [NUM_TESTS, QUESTIONS_PER_TEST]
  iterate 2 rw [if_neg (by omega)]
  rw [if_pos (by omega)]

/-- Engine dispatch, band 2 (nested logic). -/
theorem generate_dispatch_logic (t q : Int) (h1 : 1 ≤ t) (h2 : t ≤ 1000)
    (h3 : 16 ≤ q) (h4 : q ≤ 25) :
    Engine.generate_question t q = Except.ok (Engine.generate_logic_question t q) := by
  unfold Engine.generate_question
  simp only [NUM_TESTS, QUESTIONS_PER_TEST]
  iterate 3 rw [if_neg (by omega)]
  rw [if_pos (by omega)]

/-- Engine dispatch, band 3 (arrow cycles). -/
theorem generate_dispatch_arrows (t q : Int) (h1 : 1 ≤ t) (h2 : t ≤ 1000)
    (h3 : 26 ≤ q) (h4 : q ≤ 35) :
    Engine.generate_question t q = Except.ok (Engine.generate_spatial_like_question t q) := by
  unfold Engine.generate_question
  simp only [NUM_TESTS, QUESTIONS_PER_TEST]
  iterate 4 rw [if_neg (by omega)]
  rw [if_pos (by omega)]

/-- Engine dispatch, band 4 (letter analogies). -/
theorem generate_dispatch_letter (t q : Int) (h1 : 1 ≤ t) (h2 : t ≤ 1000)
    (h3 : 36 ≤ q) (h4 : q ≤ 45) :
    Engine.generate_question t q = Except.ok (Engine.generate_letter_question t q) := by
  unfold Engine.generate_question
  simp only [NUM_TESTS, QUESTIONS_PER_TEST]
  iterate 5 rw [if_neg (by omega)]
  rw [if_pos (by omega)]

/-- Engine dispatch, band 5 (word stories). -/
theorem generate_dispatch_word (t q : Int) (h1 : 1 ≤ t) (h2 : t ≤ 1000)
    (h3 : 46 ≤ q) (h4 : q ≤ 55) :
    Engine.generate_question t q = Except.ok (Engine.generate_word_question t q) := by
  unfold Engine.generate_question
  simp only [NUM_TESTS, QUESTIONS_PER_TEST]
  iterate 6 rw [if_neg (by omega)]
  rw [if_pos (by omega)]

/-- Engine dispatch, band 6 (Raven matrices). -/
theorem generate_dispatch_raven (t q : Int) (h1 : 1 ≤ t) (h2 : t ≤ 1000)
    (h3 : 56 ≤ q) (h4 : q ≤ 70) :
    Engine.generate_question t q = Except.ok (Engine.generate_raven_matrix_question t q) := by
  unfold Engine.generate_question
  simp only [NUM_TESTS, QUESTIONS_PER_TEST]
  iterate 7 rw [if_neg (by omega)]
  rw [if_pos (by omega)]

/-- Engine dispatch, band 7 (base conversion). -/
theorem generate_dispatch_base (t q : Int) (h1 : 1 ≤ t) (h2 : t ≤ 1000)
    (h3 : 71 ≤ q) (h4 : q ≤ 80) :
    Engine.generate_question t q = Except.ok (Engine.generate_base_conversion_question t q) := by
  unfold Engine.generate_question
  simp only [NUM_TESTS, QUESTIONS_PER_TEST]
  iterate 8 rw [if_neg (by omega)]
  rw [if_pos (by omega)]

/-- Engine dispatch, band 8 (shape sequences). -/
theorem generate_dispatch_shape (t q : Int) (h1 : 1 ≤ t) (h2 : t ≤ 1000)
    (h3 : 81 ≤ q) (h4 : q ≤ 90) :
    Engine.generate_question t q = Except.ok (Engine.generate_shape_sequence_question t q) := by
  unfold Engine.generate_question
  simp only [NUM_TESTS, QUESTIONS_PER_TEST]
  iterate 9 rw [if_neg (by omega)]
  rw [if_pos (by omega)]

/-- Engine dispatch, band 9 (self-referential). -/
theorem generate_dispatch_selfref (t q : Int) (h1 : 1 ≤ t) (h2 : t ≤ 1000)
    (h3 : 91 ≤ q) (h4 : q ≤ 100) :
    Engine.generate_question t q = Except.ok (Engine.generate_self_referential_question t q) := by
  unfold Engine.generate_question
  simp only [NUM_TESTS, QUESTIONS_PER_TEST]
  iterate 10 rw [if_neg (by omega)]

/-- Solver dispatch, band 1 (numeric sequences). -/
theorem solve_dispatch_numeric (t q : Int) (h1 : 1 ≤ t) (h2 : t ≤ 1000)
    (h3 : 1 ≤ q) (h4 : q ≤ 15) :
    Solver.solve_question t q = Except.ok (Answer.int (Solver.solve_numeric t q)) := by
  unfold Solver.solve_question
  rw [ensure_valid_ok t q h1 h2 h3 (by omega)]
  simp only [Except.bind]
  rw [if_pos (by omega)]

/-- Solver dispatch, band 2 (nested logic). -/
theorem solve_dispatch_logic (t q : Int) (h1 : 1 ≤ t) (h2 : t ≤ 1000)
    (h3 : 16 ≤ q) (h4 : q ≤ 25) :
    Solver.solve_question t q = Except.ok (Answer.str (Solver.solve_logic t q)) := by
  unfold Solver.solve_question
  rw [ensure_valid_ok t q h1 h2 (by omega) (by omega)]
  simp only [Except.bind]
  rw [if_neg (by omega)]
  rw [if_pos (by omega)]

/-- Solver dispatch, band 3 (arrow cycles). -/
theorem solve_dispatch_arrows (t q : Int) (h1 : 1 ≤ t) (h2 : t ≤ 1000)
    (h3 : 26 ≤ q) (h4 : q ≤ 35) :
    Solver.solve_question t q = Except.ok (Answer.str (Solver.solve_arrows t q)) := by
  unfold Solver.solve_question
  rw [ensure_valid_ok t q h1 h2 (by omega) (by omega)]
  simp only [Except.bind]
  iterate 2 rw [if_neg (by omega)]
  rw [if_pos (by omega)]

/-- Solver dispatch, band 4 (letter analogies). -/
theorem solve_dispatch_letter (t q : Int) (h1 : 1 ≤ t) (h2 : t ≤ 1000)
    (h3 : 36 ≤ q) (h4 : q ≤ 45) :
    Solver.solve_question t q = Except.ok (Answer.str (Solver.solve_letter t q)) := by
  unfold Solver.solve_question
  rw [ensure_valid_ok t q h1 h2 (by omega) (by omega)]
  simp only [Except.bind]
  iterate 3 rw [if_neg (by omega)]
  rw [if_pos (by omega)]

/-- Solver dispatch, band 5 (word stories). -/
theorem solve_dispatch_word (t q : Int) (h1 : 1 ≤ t) (h2 : t ≤ 1000)
    (h3 : 46 ≤ q) (h4 : q ≤ 55) :
    Solver.solve_question t q = Except.ok (Answer.int (Solver.solve_word t q)) := by
  unfold Solver.solve_question
  rw [ensure_valid_ok t q h1 h2 (by omega) (by omega)]
  simp only [Except.bind]
  iterate 4 rw [if_neg (by omega)]
  rw [if_pos (by omega)]

/-- Solver dispatch, band 6 (Raven matrices). -/
theorem solve_dispatch_raven (t q : Int) (h1 : 1 ≤ t) (h2 : t ≤ 1000)
    (h3 : 56 ≤ q) (h4 : q ≤ 70) :
    Solver.solve_question t q = Except.ok (Answer.str (Solver.solve_raven t q)) := by
  unfold Solver.solve_question
  rw [ensure_valid_ok t q h1 h2 (by omega) (by omega)]
  simp only [Except.bind]
  iterate 5 rw [if_neg (by omega)]
  rw [if_pos (by omega)]

/-- Solver dispatch, band 7 (base conversion). -/
theorem solve_dispatch_base (t q : Int) (h1 : 1 ≤ t) (h2 : t ≤ 1000)
    (h3 : 71 ≤ q) (h4 : q ≤ 80) :
    Solver.solve_question t q = Except.ok (Answer.int (Solver.solve_base t q)) := by
  unfold Solver.solve_question
  rw [ensure_valid_ok t q h1 h2 (by omega) (by omega)]
  simp only [Except.bind]
  iterate 6 rw [if_neg (by omega)]
  rw [if_pos (by omega)]

/-- Solver dispatch, band 8 (shape sequences). -/
theorem solve_dispatch_shape (t q : Int) (h1 : 1 ≤ t) (h2 : t ≤ 1000)
    (h3 : 81 ≤ q) (h4 : q ≤ 90) :
    Solver.solve_question t q =
      Except.ok (Answer.intPair (Solver.solve_shape_sequence t q).1
        (Solver.solve_shape_sequence t q).2) := by
  unfold Solver.solve_question
  rw [ensure_valid_ok t q h1 h2 (by omega) (by omega)]
  simp only [Except.bind]
  iterate 7 rw [if_neg (by omega)]
  rw [if_pos (by omega)]

/-- Solver dispatch, band 9 (self-referential). -/
theorem solve_dispatch_selfref (t q : Int) (h1 : 1 ≤ t) (h2 : t ≤ 1000)
    (h3 : 91 ≤ q) (h4 : q ≤ 100) :
    Solver.solve_question t q = Except.ok (Answer.int (Solver.solve_self_referential t q)) := by
  unfold Solver.solve_question
  rw [ensure_valid_ok t q h1 h2 (by omega) (by omega)]
  simp only [Except.bind]
  iterate 8 rw [if_neg (by omega)]

/-! ### Claim theorems -/

/-- `isOk` on a success. -/
theorem isOk_ok {A : Type} (x : A) : (Except.ok x : Except String A).isOk = true := rfl

/-- `isOk` on an error. -/
theorem isOk_error {A : Type} (e : String) : (Except.error e : Except String A).isOk = false := rfl

/-- `Except.bind` on a success. -/
theorem bind_ok {A : Type} (f : Unit → Except String A) :
    Except.bind (Except.ok ()) f = f () := rfl

/-- `Except.bind` on an error. -/
theorem bind_error {A : Type} (e : String) (f : Unit → Except String A) :
    Except.bind (Except.error e) f = Except.error e := rfl

set_option maxHeartbeats 1600000 in
/-- C1: for every pair of integers, `generate_question` and
`solve_question` fail with the range-validation error exactly when
`test_id ∉ [1,1000]` or `question_idx ∉ [1,100]`, and succeed otherwise
(in particular at the extremes of both ranges). -/
theorem range_validation_iff (test_id question_idx : Int) :
    ((Engine.generate_question test_id question_idx).isOk = true ↔
      1 ≤ test_id ∧ test_id ≤ 1000 ∧ 1 ≤ question_idx ∧ question_idx ≤ 100) ∧
    ((Solver.solve_question test_id question_idx).isOk = true ↔
      1 ≤ test_id ∧ test_id ≤ 1000 ∧ 1 ≤ question_idx ∧ question_idx ≤ 100) := by
  constructor
  · unfold Engine.generate_question
    simp only [NUM_TESTS, QUESTIONS_PER_TEST]
    split_ifs <;>
      first
        | exact iff_of_true rfl (by omega)
        | exact iff_of_false (fun h => Bool.noConfusion h) (by omega)
  · unfold Solver.solve_question Solver.ensure_valid_indices
    simp only [NUM_TESTS, QUESTIONS_PER_TEST]
    split_ifs <;>
      first
        | exact iff_of_true rfl (by omega)
        | exact iff_of_false (fun h => Bool.noConfusion h) (by omega)

/-- C2: on every valid key the generator's and the solver's dispatchers
select the handler pair of the same domain, via the identical band
partition 1–15, 16–25, 26–35, 36–45, 46–55, 56–70, 71–80, 81–90,
91–100 of `question_idx`. -/
theorem dispatchers_agree (test_id question_idx : Int)
    (h1 : 1 ≤ test_id) (h2 : test_id ≤ 1000)
    (h3 : 1 ≤ question_idx) (h4 : question_idx ≤ 100) :
    (1 ≤ question_idx ∧ question_idx ≤ 15 →
      Engine.generate_question test_id question_idx =
        Except.ok (Engine.generate_numeric_question test_id question_idx) ∧
      Solver.solve_question test_id question_idx =
        Except.ok (Answer.int (Solver.solve_numeric test_id question_idx))) ∧
    (16 ≤ question_idx ∧ question_idx ≤ 25 →
      Engine.generate_question test_id question_idx =
        Except.ok (Engine.generate_logic_question test_id question_idx) ∧
      Solver.solve_question test_id question_idx =
        Except.ok (Answer.str (Solver.solve_logic test_id question_idx))) ∧
    (26 ≤ question_idx ∧ question_idx ≤ 35 →
      Engine.generate_question test_id question_idx =
        Except.ok (Engine.generate_spatial_like_question test_id question_idx) ∧
      Solver.solve_question test_id question_idx =
        Except.ok (Answer.str (Solver.solve_arrows test_id question_idx))) ∧
    (36 ≤ question_idx ∧ question_idx ≤ 45 →
      Engine.generate_question test_id question_idx =
        Except.ok (Engine.generate_letter_question test_id question_idx) ∧
      Solver.solve_question test_id question_idx =
        Except.ok (Answer.str (Solver.solve_letter test_id question_idx))) ∧
    (46 ≤ question_idx ∧ question_idx ≤ 55 →
      Engine.generate_question test_id question_idx =
        Except.ok (Engine.generate_word_question test_id question_idx) ∧
      Solver.solve_question test_id question_idx =
        Except.ok (Answer.int (Solver.solve_word test_id question_idx))) ∧
    (56 ≤ question_idx ∧ question_idx ≤ 70 →
      Engine.generate_question test_id question_idx =
        Except.ok (Engine.generate_raven_matrix_question test_id question_idx) ∧
      Solver.solve_question test_id question_idx =
        Except.ok (Answer.str (Solver.solve_raven test_id question_idx))) ∧
    (71 ≤ question_idx ∧ question_idx ≤ 80 →
      Engine.generate_question test_id question_idx =
        Except.ok (Engine.generate_base_conversion_question test_id question_idx) ∧
      Solver.solve_question test_id question_idx =
        Except.ok (Answer.int (Solver.solve_base test_id question_idx))) ∧
    (81 ≤ question_idx ∧ question_idx ≤ 90 →
      Engine.generate_question test_id question_idx =
        Except.ok (Engine.generate_shape_sequence_question test_id question_idx) ∧
      Solver.solve_question test_id question_idx =
        Except.ok (Answer.intPair (Solver.solve_shape_sequence test_id question_idx).1
          (Solver.solve_shape_sequence test_id question_idx).2)) ∧
    (91 ≤ question_idx ∧ question_idx ≤ 100 →
      Engine.generate_question test_id question_idx =
        Except.ok (Engine.generate_self_referential_question test_id question_idx) ∧
      Solver.solve_question test_id question_idx =
        Except.ok (Answer.int (Solver.solve_self_referential test_id question_idx))) :=
  ⟨fun h => ⟨generate_dispatch_numeric _ _ h1 h2 h.1 h.2,
             solve_dispatch_numeric _ _ h1 h2 h.1 h.2⟩,
   fun h => ⟨generate_dispatch_logic _ _ h1 h2 h.1 h.2,
             solve_dispatch_logic _ _ h1 h2 h.1 h.2⟩,
   fun h => ⟨generate_dispatch_arrows _ _ h1 h2 h.1 h.2,
             solve_dispatch_arrows _ _ h1 h2 h.1 h.2⟩,
   fun h => ⟨generate_dispatch_letter _ _ h1 h2 h.1 h.2,
             solve_dispatch_letter _ _ h1 h2 h.1 h.2⟩,
   fun h => ⟨generate_dispatch_word _ _ h1 h2 h.1 h.2,
             solve_dispatch_word _ _ h1 h2 h.1 h.2⟩,
   fun h => ⟨generate_dispatch_raven _ _ h1 h2 h.1 h.2,
             solve_dispatch_raven _ _ h1 h2 h.1 h.2⟩,
   fun h => ⟨generate_dispatch_base _ _ h1 h2 h.1 h.2,
             solve_dispatch_base _ _ h1 h2 h.1 h.2⟩,
   fun h => ⟨generate_dispatch_shape _ _ h1 h2 h.1 h.2,
             solve_dispatch_shape _ _ h1 h2 h.1 h.2⟩,
   fun h => ⟨generate_dispatch_selfref _ _ h1 h2 h.1 h.2,
             solve_dispatch_selfref _ _ h1 h2 h.1 h.2⟩⟩

/-- C2 witness: at the concrete key (1, 20) both dispatchers pick the
logic-domain handler pair. -/
theorem dispatchers_agree_witness :
    Engine.generate_question 1 20 = Except.ok (Engine.generate_logic_question 1 20) ∧
    Solver.solve_question 1 20 = Except.ok (Answer.str (Solver.solve_logic 1 20)) :=
  (dispatchers_agree 1 20 (by norm_num) (by norm_num) (by norm_num) (by norm_num)).2.1
    ⟨by norm_num, by norm_num⟩

/-- C10 counterexample: at test_id = 6 (a valid test id) the letter
coefficient is 13, which is odd but has no multiplicative inverse
modulo 26 — refuting "hence invertible modulo 26". -/
theorem letter_a_not_invertible_cex :
    (1 : Int) ≤ 6 ∧ (6 : Int) ≤ 1000 ∧ Engine.letter_a 6 = 13 ∧
      ¬ ∃ y : Fin 26, (13 * (y : Nat)) % 26 = 1 :=
  ⟨by norm_num, by norm_num, by decide, by decide⟩

/-- C10 (amended): (2·test_id+1) mod 26 is odd for every integer
test_id, so the bump branch that adds 1 is unreachable in both the
generator's and the solver's letter handlers and the coefficient `a`
always equals (2·test_id+1) mod 26 and is odd; oddness does not,
however, make it invertible modulo 26 in general. -/
theorem letter_a_always_odd (test_id : Int) :
    Engine.letter_a test_id = (2 * test_id + 1) % 26 ∧
    Solver.letter_a test_id = (2 * test_id + 1) % 26 ∧
    ((2 * test_id + 1) % 26) % 2 = 1 := by
  refine ⟨?_, ?_, by omega⟩
  · unfold Engine.letter_a
    rw [if_neg (by omega)]
  · unfold Solver.letter_a
    rw [if_neg (by omega)]

/-- C8: on every valid key of the base-conversion band the two display
bases differ and all three bases lie in [5,16]. -/
theorem base_conversion_bases (test_id question_idx : Int)
    (h1 : 1 ≤ test_id) (h2 : test_id ≤ 1000)
    (h3 : 71 ≤ question_idx) (h4 : question_idx ≤ 80) :
    Engine.base_x_of test_id (question_idx - 70) ≠ Engine.base_y_of test_id (question_idx - 70) ∧
    5 ≤ Engine.base_x_of test_id (question_idx - 70) ∧
    Engine.base_x_of test_id (question_idx - 70) ≤ 16 ∧
    5 ≤ Engine.base_y_of test_id (question_idx - 70) ∧
    Engine.base_y_of test_id (question_idx - 70) ≤ 16 ∧
    5 ≤ Engine.base_z_of test_id (question_idx - 70) ∧
    Engine.base_z_of test_id (question_idx - 70) ≤ 16 := by
  simp only [Engine.base_y_of, Engine.base_x_of, Engine.base_z_of]
  split_ifs <;> omega

/-- C8 witness at (12, 71), a key on which the initial base_y collides
with base_x and the fallback to 16 fires. -/
theorem base_conversion_bases_witness :
    Engine.base_x_of 12 1 ≠ Engine.base_y_of 12 1 ∧
    5 ≤ Engine.base_x_of 12 1 ∧ Engine.base_x_of 12 1 ≤ 16 ∧
    5 ≤ Engine.base_y_of 12 1 ∧ Engine.base_y_of 12 1 ≤ 16 ∧
    5 ≤ Engine.base_z_of 12 1 ∧ Engine.base_z_of 12 1 ≤ 16 :=
  base_conversion_bases 12 71 (by norm_num) (by norm_num) (by norm_num) (by norm_num)

/-- C9: on the base-conversion band the solver returns the hidden
integer N = 200+17·test_id+11·local directly (no base parsing), that N
matches the generator's hidden integer, and N is positive, so the "0"
branch of the base renderer is never needed for it. -/
theorem solve_base_returns_N (test_id question_idx : Int)
    (h1 : 1 ≤ test_id) (h2 : test_id ≤ 1000)
    (h3 : 71 ≤ question_idx) (h4 : question_idx ≤ 80) :
    Solver.solve_question test_id question_idx =
      Except.ok (Answer.int (200 + 17 * test_id + 11 * (question_idx - 70))) ∧
    Engine.base_conversion_N test_id (question_idx - 70) =
      200 + 17 * test_id + 11 * (question_idx - 70) ∧
    0 < 200 + 17 * test_id + 11 * (question_idx - 70) := by
  refine ⟨?_, rfl, by omega⟩
  rw [solve_dispatch_base _ _ h1 h2 h3 h4]
  rfl

/-- C9 witness: `solve_question(2, 71) = 245`. -/
theorem solve_base_returns_N_witness :
    Solver.solve_question 2 71 = Except.ok (Answer.int 245) := by
  have h := (solve_base_returns_N 2 71 (by norm_num) (by norm_num) (by norm_num) (by norm_num)).1
  norm_num at h
  exact h

/-- C7: on the arrow band the solver returns "(A, B)" with A the
primary-cycle element at index (N1−1) mod 4, N1 = 7·test_id+11·local,
and B the secondary-cycle element at index (N2−1) mod 4,
N2 = 5·test_id−3·local, both residues non-negative (in [0,4)) even
when N2 is negative. -/
theorem solve_arrows_pair (test_id question_idx : Int)
    (h1 : 1 ≤ test_id) (h2 : test_id ≤ 1000)
    (h3 : 26 ≤ question_idx) (h4 : question_idx ≤ 35) :
    Solver.solve_question test_id question_idx = Except.ok (Answer.str
      ("(" ++ ["↑", "→", "↓", "←"].getD
          ((7 * test_id + 11 * (question_idx - 25) - 1) % 4).toNat "" ++
       ", " ++ ["↖", "↗", "↘", "↙"].getD
          ((5 * test_id - 3 * (question_idx - 25) - 1) % 4).toNat "" ++ ")")) ∧
    0 ≤ (7 * test_id + 11 * (question_idx - 25) - 1) % 4 ∧
    (7 * test_id + 11 * (question_idx - 25) - 1) % 4 < 4 ∧
    0 ≤ (5 * test_id - 3 * (question_idx - 25) - 1) % 4 ∧
    (5 * test_id - 3 * (question_idx - 25) - 1) % 4 < 4 := by
  refine ⟨?_, by omega, by omega, by omega, by omega⟩
  rw [solve_dispatch_arrows _ _ h1 h2 h3 h4]
  rfl

/-- C7 witness at (1, 26): N1 = 18, N2 = 2, answer "(→, ↗)". -/
theorem solve_arrows_pair_witness :
    Solver.solve_question 1 26 = Except.ok (Answer.str "(→, ↗)") := by
  have h := (solve_arrows_pair 1 26 (by norm_num) (by norm_num) (by norm_num) (by norm_num)).1
  rw [h]
  rfl

/-- C6: on the letter band the solver returns the letter at index
(a·x2+b) mod 26 (A=0..Z=25), with a = (2·test_id+1) mod 26 bumped by 1
if even, b = (3·local+test_id) mod 26, x1 = (5·test_id+local) mod 26,
x2 = (x1+13) mod 26. -/
theorem solve_letter_formula (test_id question_idx a0 a b x1 x2 : Int)
    (h1 : 1 ≤ test_id) (h2 : test_id ≤ 1000)
    (h3 : 36 ≤ question_idx) (h4 : question_idx ≤ 45)
    (ha0 : a0 = (2 * test_id + 1) % 26)
    (ha : a = if a0 % 2 = 0 then (a0 + 1) % 26 else a0)
    (hb : b = (3 * (question_idx - 35) + test_id) % 26)
    (hx1 : x1 = (5 * test_id + (question_idx - 35)) % 26)
    (hx2 : x2 = (x1 + 13) % 26) :
    Solver.solve_question test_id question_idx =
      Except.ok (Answer.str (Solver.enc ((a * x2 + b) % 26))) := by
  subst ha0 ha hb hx1 hx2
  rw [solve_dispatch_letter _ _ h1 h2 h3 h4]
  rfl

/-- C6 witness at (1, 36): a=3, b=4, x1=6, x2=19, answer "J". -/
theorem solve_letter_formula_witness :
    ((3 : Int) = (2 * 1 + 1) % 26) ∧ ((4 : Int) = (3 * (36 - 35) + 1) % 26) ∧
    ((6 : Int) = (5 * 1 + (36 - 35)) % 26) ∧ ((19 : Int) = (6 + 13) % 26) ∧
    Solver.solve_question 1 36 = Except.ok (Answer.str "J") := by
  refine ⟨by norm_num, by norm_num, by norm_num, by norm_num, ?_⟩
  have h := solve_letter_formula 1 36 3 3 4 6 19 (by norm_num) (by norm_num)
    (by norm_num) (by norm_num) (by norm_num) (by norm_num) (by norm_num)
    (by norm_num) (by norm_num)
  rw [h]
  rfl

/-- `_is_prime_like n` holds exactly when n has no divisor in
{2, 3, 5, 7}. -/
theorem is_prime_like_iff (n : Int) :
    Solver.is_prime_like n = true ↔
      ¬(2 ∣ n) ∧ ¬(3 ∣ n) ∧ ¬(5 ∣ n) ∧ ¬(7 ∣ n) := by
  unfold Solver.is_prime_like
  simp only [List.all_cons, List.all_nil, Bool.and_eq_true, bne_iff_ne, ne_eq, Bool.and_true]
  rw [Int.dvd_iff_emod_eq_zero, Int.dvd_iff_emod_eq_zero, Int.dvd_iff_emod_eq_zero,
    Int.dvd_iff_emod_eq_zero]

/-- A TRUE/FALSE rendering equals "TRUE" exactly when its condition
holds. -/
theorem ite_string_eq_true (c : Prop) [Decidable c] :
    ((if c then "TRUE" else "FALSE") = "TRUE") ↔ c := by
  split_ifs with h
  · exact iff_of_true rfl h
  · exact iff_of_false (by decide) h

/-- C5: on the logic band the solver returns "TRUE"/"FALSE" by
evaluating the template selected by (test_id+local) mod 4 among
(p∧q)∨¬r, (p∧r)→(q⊕r), (p⊕q)∧(q∨r), (p∨q)→(¬p∧r), where p = test_id
even, q = local a multiple of 3, r = test_id+local has no divisor in
{2,3,5,7}, with → material implication. -/
theorem solve_logic_formula (test_id question_idx : Int) (p q r : Prop)
    (h1 : 1 ≤ test_id) (h2 : test_id ≤ 1000)
    (h3 : 16 ≤ question_idx) (h4 : question_idx ≤ 25)
    (hp : p ↔ test_id % 2 = 0)
    (hq : q ↔ (question_idx - 15) % 3 = 0)
    (hr : r ↔ ¬(2 ∣ (test_id + (question_idx - 15))) ∧
          ¬(3 ∣ (test_id + (question_idx - 15))) ∧
          ¬(5 ∣ (test_id + (question_idx - 15))) ∧
          ¬(7 ∣ (test_id + (question_idx - 15)))) :
    (Solver.solve_question test_id question_idx = Except.ok (Answer.str "TRUE") ∨
      Solver.solve_question test_id question_idx = Except.ok (Answer.str "FALSE")) ∧
    (Solver.solve_question test_id question_idx = Except.ok (Answer.str "TRUE") ↔
      (if (test_id + (question_idx - 15)) % 4 = 0 then (p ∧ q) ∨ ¬ r
       else if (test_id + (question_idx - 15)) % 4 = 1 then (p ∧ r) → Xor' q r
       else if (test_id + (question_idx - 15)) % 4 = 2 then Xor' p q ∧ (q ∨ r)
       else (p ∨ q) → (¬ p ∧ r))) := by
  rw [solve_dispatch_logic _ _ h1 h2 h3 h4]
  simp only [Solver.solve_logic]
  refine ⟨?_, ?_⟩
  · split_ifs <;> first | exact Or.inl rfl | exact Or.inr rfl
  · simp only [Except.ok.injEq, Answer.str.injEq]
    rw [ite_string_eq_true, hp, hq, hr,
      ← is_prime_like_iff (test_id + (question_idx - 15))]
    split_ifs <;> first | exact Iff.rfl | tauto

/-- C5 witness: `solve_question(1,16) = "FALSE"` (pattern 2, all of
p, q, r false). -/
theorem solve_logic_formula_witness :
    Solver.solve_question 1 16 = Except.ok (Answer.str "FALSE") := by
  have h := solve_logic_formula 1 16 ((1 : Int) % 2 = 0) (((16 : Int) - 15) % 3 = 0)
      (¬((2 : Int) ∣ (1 + (16 - 15))) ∧ ¬((3 : Int) ∣ (1 + (16 - 15))) ∧
        ¬((5 : Int) ∣ (1 + (16 - 15))) ∧ ¬((7 : Int) ∣ (1 + (16 - 15))))
      (by norm_num) (by norm_num) (by norm_num) (by norm_num) Iff.rfl Iff.rfl Iff.rfl
  rcases h.1 with h1 | h1
  · exfalso
    have h2 := h.2.mp h1
    norm_num [Xor'] at h2
  · exact h1

/-- Indexing a mapped 7-element range. -/
theorem map_range7_getD (f : Nat → Int) (i : Nat) (h : i < 7) :
    ((List.range 7).map f).getD i 0 = f i := by
  interval_cases i <;> rfl

/-- `_solve_numeric` returns the sequence formula evaluated at
`k = pos + 1` where `pos = 2 + local mod 3` is the hidden 0-based
position. -/
theorem solve_numeric_eq (t q : Int) (i : Nat) (hi : (i : Int) = 2 + q % 3) :
    Solver.solve_numeric t q =
      (3 * t + 5 * q) % 97 + 10 + ((2 * t + q) % 11 + 1) * ((i : Int) + 1) +
      ((t + 3 * q) % 7 + 1) * (((i : Int) + 1) * ((i : Int) + 1)) +
      (if ((i : Int) + 1) % 2 = 0 then (t * q) % 9 else (t + q) % 9) := by
  have h3 : q % 3 = 0 ∨ q % 3 = 1 ∨ q % 3 = 2 := by omega
  simp only [Solver.solve_numeric]
  rcases h3 with hc | hc | hc
  · have hi' : i = 2 := by omega
    subst hi'
    rw [hc, map_range7_getD _ _ (by norm_num)]
    norm_num
  · have hi' : i = 3 := by omega
    subst hi'
    rw [hc, map_range7_getD _ _ (by norm_num)]
    norm_num
  · have hi' : i = 4 := by omega
    subst hi'
    rw [hc, map_range7_getD _ _ (by norm_num)]
    norm_num

/-- The generator's `shown` list holds `"?"` at the hidden position and
the rendered sequence value everywhere else. -/
theorem numeric_shown_getD (t q : Int) (i : Nat) (hi : i < 7) :
    (Engine.numeric_shown t q).getD i "" =
      if (i : Int) = 2 + q % 3 then "?"
      else toString ((Engine.numeric_seq t q).getD i 0) := by
  interval_cases i <;> rfl

/-- C4: on the numeric band the solver returns the term at 0-based
position 2+(local mod 3) (so position 2, 3, or 4) of the 7-term
sequence a_k = base+α·k+β·k²+parity_offset(k), k=1..7, with the stated
parameter formulas; the hidden position is strictly interior, and it is
exactly the position the generator renders as "?". -/
theorem numeric_hidden_term (test_id question_idx base alpha beta even_offset odd_offset : Int)
    (pos : Nat)
    (h1 : 1 ≤ test_id) (h2 : test_id ≤ 1000)
    (h3 : 1 ≤ question_idx) (h4 : question_idx ≤ 15)
    (hbase : base = (3 * test_id + 5 * question_idx) % 97 + 10)
    (halpha : alpha = (2 * test_id + question_idx) % 11 + 1)
    (hbeta : beta = (test_id + 3 * question_idx) % 7 + 1)
    (heo : even_offset = (test_id * question_idx) % 9)
    (hoo : odd_offset = (test_id + question_idx) % 9)
    (hpos : (pos : Int) = 2 + question_idx % 3) :
    Solver.solve_question test_id question_idx = Except.ok (Answer.int
      (base + alpha * ((pos : Int) + 1) + beta * (((pos : Int) + 1) * ((pos : Int) + 1)) +
        (if ((pos : Int) + 1) % 2 = 0 then even_offset else odd_offset))) ∧
    2 ≤ pos ∧ pos ≤ 4 ∧ 0 < pos ∧ pos < 6 ∧
    (∀ i : Nat, i < 7 →
      ((Engine.numeric_shown test_id question_idx).getD i "" = "?" ↔ i = pos)) := by
  subst hbase halpha hbeta heo hoo
  refine ⟨?_, by omega, by omega, by omega, by omega, ?_⟩
  · rw [solve_dispatch_numeric _ _ h1 h2 h3 h4,
      solve_numeric_eq test_id question_idx pos hpos]
  · intro i hi
    rw [numeric_shown_getD test_id question_idx i hi]
    by_cases hcond : (i : Int) = 2 + question_idx % 3
    · rw [if_pos hcond]
      exact iff_of_true rfl (by omega)
    · rw [if_neg hcond]
      exact iff_of_false (toString_int_ne_qmark _) (by omega)

/-- C4 witness at (1, 1): base=18, α=4, β=5, offsets 1/2, hidden
position 3, answer 115, and slot 3 of the shown list is "?". -/
theorem numeric_hidden_term_witness :
    Solver.solve_question 1 1 = Except.ok (Answer.int 115) ∧
    (Engine.numeric_shown 1 1).getD 3 "" = "?" := by
  have h := numeric_hidden_term 1 1 18 4 5 1 2 3 (by norm_num) (by norm_num)
    (by norm_num) (by norm_num) (by norm_num) (by norm_num) (by norm_num)
    (by norm_num) (by norm_num) (by norm_num)
  refine ⟨?_, (h.2.2.2.2.2 3 (by norm_num)).mpr rfl⟩
  have h1 := h.1
  norm_num at h1
  exact h1

/-- C3 counterexample: at (1,1) the numeric generator's meta holds no
"base"/"alpha"/"beta"/offset entries, and the solver's re-derived base
18 appears under no key at all, so the numeric parameters are not
embedded in the question metadata. -/
theorem numeric_meta_no_params_cex :
    (Engine.generate_numeric_question 1 1).meta.lookup "base" = none ∧
    (Engine.generate_numeric_question 1 1).meta.lookup "alpha" = none ∧
    (Engine.generate_numeric_question 1 1).meta.lookup "beta" = none ∧
    (Engine.generate_numeric_question 1 1).meta.lookup "even_offset" = none ∧
    (Engine.generate_numeric_question 1 1).meta.lookup "odd_offset" = none ∧
    ((3 * (1 : Int) + 5 * 1) % 97 + 10 = 18) ∧
    (Engine.generate_numeric_question 1 1).meta.all (fun kv => kv.2 != MetaVal.i 18) = true :=
  ⟨rfl, rfl, rfl, rfl, rfl, by norm_num, rfl⟩

/-- C3 (amended): the letter domain's a, b, x1, x2 do appear in the
generator's meta with exactly the solver's re-derived values, and the
solver's answer is computable from them; but the numeric domain's base,
alpha, beta and parity offsets appear in no meta field, so the numeric
meta alone does not suffice to recompute the solver's answer. -/
theorem meta_solver_params (test_id question_idx : Int)
    (h1 : 1 ≤ test_id) (h2 : test_id ≤ 1000)
    (h3 : 1 ≤ question_idx) (h4 : question_idx ≤ 100) :
    (36 ≤ question_idx → question_idx ≤ 45 →
      ((Engine.generate_letter_question test_id question_idx).meta.lookup "a_mod_26" =
          some (MetaVal.i (Solver.letter_a test_id)) ∧
        (Engine.generate_letter_question test_id question_idx).meta.lookup "b_mod_26" =
          some (MetaVal.i ((3 * (question_idx - 35) + test_id) % 26)) ∧
        (Engine.generate_letter_question test_id question_idx).meta.lookup "example_input_index" =
          some (MetaVal.i ((5 * test_id + (question_idx - 35)) % 26)) ∧
        (Engine.generate_letter_question test_id question_idx).meta.lookup "query_input_index" =
          some (MetaVal.i (((5 * test_id + (question_idx - 35)) % 26 + 13) % 26)) ∧
        Solver.solve_question test_id question_idx = Except.ok (Answer.str (Solver.enc
          ((Solver.letter_a test_id * (((5 * test_id + (question_idx - 35)) % 26 + 13) % 26) +
            (3 * (question_idx - 35) + test_id) % 26) % 26))))) ∧
    (1 ≤ question_idx → question_idx ≤ 15 →
      ((Engine.generate_numeric_question test_id question_idx).meta.lookup "base" = none ∧
       (Engine.generate_numeric_question test_id question_idx).meta.lookup "alpha" = none ∧
       (Engine.generate_numeric_question test_id question_idx).meta.lookup "beta" = none ∧
       (Engine.generate_numeric_question test_id question_idx).meta.lookup "even_offset" = none ∧
       (Engine.generate_numeric_question test_id question_idx).meta.lookup "odd_offset" = none)) := by
  constructor
  · intro hq1 hq2
    refine ⟨rfl, rfl, rfl, rfl, ?_⟩
    rw [solve_dispatch_letter _ _ h1 h2 hq1 hq2]
    rfl
  · intro hq1 hq2
    exact ⟨rfl, rfl, rfl, rfl, rfl⟩

/-- C3 witness: at (1,36) the letter meta exposes a = 3; at (1,1) the
numeric meta has no "base" entry. -/
theorem meta_solver_params_witness :
    (Engine.generate_letter_question 1 36).meta.lookup "a_mod_26" = some (MetaVal.i 3) ∧
    (Engine.generate_numeric_question 1 1).meta.lookup "base" = none := by
  have hL := (meta_solver_params 1 36 (by norm_num) (by norm_num) (by norm_num)
    (by norm_num)).1 (by norm_num) (by norm_num)
  have hN := (meta_solver_params 1 1 (by norm_num) (by norm_num) (by norm_num)
    (by norm_num)).2 (by norm_num) (by norm_num)
  refine ⟨?_, hN.1⟩
  rw [hL.1]
  decide
